import Mathlib

/-!
Formal model of the Solace session orchestration engine
(mental_health_companion.py), shallowly embedded in Lean 4.

Each UI-affecting method of SolaceApp is modelled as a pure state
transformer returning the updated application state together with the
ordered list of side effects it issues.  An effect records whether the
work was posted to the UI thread via root.after (UIDispatch) or executed
directly on the issuing thread, so that the threading claims of the
specification can be stated and settled.
-/

namespace Solace

/-- Message roles used in conversation_history and in provider payloads. -/
inductive Role
  | user
  | assistant
  | system
deriving DecidableEq, Repr

/-- A role-tagged chat message, as stored in conversation_history. -/
structure Message where
  role : Role
  content : String
deriving DecidableEq, Repr

/-- The two provider backends selectable in the sidebar. -/
inductive Provider
  | openAI
  | openRouter
deriving DecidableEq, Repr

/-- Display name of a provider, as used in warning dialogs. -/
def providerName : Provider → String
  | Provider.openAI => "OpenAI"
  | Provider.openRouter => "OpenRouter"

/-- Python str.strip on the input text: remove leading and trailing
whitespace characters. -/
def pyStrip (s : String) : String :=
  String.mk
    (((s.data.dropWhile Char.isWhitespace).reverse.dropWhile
        Char.isWhitespace).reverse)

/-- The companion persona prompt, SYSTEM_PROMPT in the source. -/
def SYSTEM_PROMPT : String :=
  "You are Solace, a warm and empathetic mental health companion. Your role is to:\n- Listen deeply and reflect back what you hear with genuine compassion\n- Validate emotions without judgment\n- Ask thoughtful, open-ended questions to help the user explore their feelings\n- Offer gentle, evidence-based coping strategies when appropriate (breathing exercises, grounding techniques, journaling prompts)\n- Recognize when someone may need professional help and gently encourage it\n- Never diagnose or prescribe\n- Keep responses concise (2-4 sentences usually), warm, and conversational\n- Use simple, accessible language\n- If someone expresses suicidal ideation or self-harm, ALWAYS provide crisis resources: 988 Suicide & Crisis Lifeline (call/text 988 in the US)\n\nAlways respond with warmth, patience, and genuine care."

/-- The input-box placeholder text that _send_message refuses to send. -/
def placeholderText : String := "Share what\x27s on your mind…"

/-- Steps of one box-breathing cycle: label and duration in seconds
(BOX_BREATHING_STEPS in the source). -/
def BOX_BREATHING_STEPS : List (String × Nat) :=
  [("Inhale…", 4), ("Hold…", 4), ("Exhale…", 6), ("Hold…", 4)]

/-- The threads of the program: the tkinter main loop and the ad hoc
worker threads spawned per provider call or breathing session. -/
inductive Thread
  | ui
  | worker
deriving DecidableEq, Repr

/-- UI-rendering actions (calls into the presentation layer). -/
inductive UIAction
  | showThinking
  | hideThinking
  | startBotMessage (name : String)
  | appendChunk (text : String)
  | finishBotMessage
  | renderMessage (role name text : String)
  | drawBreathCircle (label : String) (scale : ℚ)
  | setBreathButton (text : String)
deriving DecidableEq, Repr

/-- One observable side effect of a method, in issue order.
post a      : the action was handed to root.after(0, ...), i.e. posted
              through UIDispatch to run later on the UI thread;
run t a     : the action was executed directly by the code running on
              thread t;
appendHistory t m : conversation_history.append(m) executed directly on
              thread t;
spawnWorker : threading.Thread(...).start();
sleep q     : time.sleep(q);
warn        : a messagebox dialog. -/
inductive Effect
  | post (a : UIAction)
  | run (t : Thread) (a : UIAction)
  | appendHistory (t : Thread) (m : Message)
  | spawnWorker
  | sleep (q : ℚ)
  | warn (title msg : String)
deriving DecidableEq, Repr

/-- Result of an HTTP round trip attempted by requests.get / requests.post:
either a response with a status code and (for completion calls) the
optional text found at choices[0].message.content, or a raised transport
error. -/
inductive NetResult
  | resp (statusCode : Nat) (content : Option String)
  | netError (msg : String)
deriving DecidableEq, Repr

/-- A NetResult that the connect and completion code treats as failure:
a transport error, a non-200 status, or a 200 whose body lacks the
expected content path. -/
def NetResult.isFailure : NetResult → Bool
  | NetResult.resp statusCode content => statusCode != 200 || content.isNone
  | NetResult.netError _ => true

/-- The mutable application state relevant to the claims: the client
flag (None/True in the source), the status label text, the transcript,
and the breathing flag with its button text. -/
structure AppState where
  client : Bool
  statusText : String
  history : List Message
  breathing : Bool
  breathBtnText : String
deriving DecidableEq, Repr

/-- The authenticated GET issued by _connect_client to test the key:
URL and Authorization header value.  The OpenAI branch of the source
sends a hardcoded OpenRouter credential to the OpenRouter models
endpoint; the OpenRouter branch sends the user key to the same
endpoint. -/
structure GetRequest where
  url : String
  authHeader : String
deriving DecidableEq, Repr

/-- The health-check request built by _connect_client for each provider. -/
def healthCheckRequest (p : Provider) (apiKey : String) : GetRequest :=
  match p with
  | Provider.openAI =>
      { url := "https://openrouter.ai/api/v1/models"
        authHeader := "Bearer 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" }
  | Provider.openRouter =>
      { url := "https://openrouter.ai/api/v1/models"
        authHeader := "Bearer " ++ apiKey }

/-- The health-check request as the specification describes it: an
authenticated GET against the selected provider own model-listing
endpoint with the user-supplied key as the bearer credential.
Modelled from the spec for comparison with healthCheckRequest. -/
def healthCheckRequestSpec (p : Provider) (apiKey : String) : GetRequest :=
  match p with
  | Provider.openAI =>
      { url := "https://api.openai.com/v1/models"
        authHeader := "Bearer " ++ apiKey }
  | Provider.openRouter =>
      { url := "https://openrouter.ai/api/v1/models"
        authHeader := "Bearer " ++ apiKey }

/-- _connect_client, given the outcome of the health-check GET: on a 200
response set the client flag and the Connected status; on any other
response or a transport error, raise, which the handler turns into the
Error status plus an error dialog.  The client flag is never cleared on
failure. -/
def connect_client (s : AppState) (net : NetResult) : AppState × List Effect :=
  match net with
  | NetResult.resp statusCode _ =>
      if statusCode = 200 then
        ({ s with client := true, statusText := "● Connected" }, [])
      else
        ({ s with statusText := "● Error" },
         [Effect.warn "Connection Error" "Invalid API key"])
  | NetResult.netError msg =>
      ({ s with statusText := "● Error" },
       [Effect.warn "Connection Error" msg])

/-- _send_message: reject when the client flag is unset; strip the input;
silently ignore empty or placeholder text; otherwise render the user
message, append it to conversation_history (directly, on the UI thread
that runs the handler), and spawn one worker thread. -/
def send_message (p : Provider) (s : AppState) (rawInput : String) :
    AppState × List Effect :=
  if s.client = false then
    (s, [Effect.warn "Not Connected"
          ("Please enter your " ++ providerName p ++ " API key and click Connect.")])
  else
    let text := pyStrip rawInput
    if text = "" ∨ text = placeholderText then
      (s, [])
    else
      ({ s with history := s.history ++ [⟨Role.user, text⟩] },
       [Effect.run Thread.ui (UIAction.renderMessage "user" "You" text),
        Effect.appendHistory Thread.ui ⟨Role.user, text⟩,
        Effect.spawnWorker])

/-- The completion payload messages built by _stream_response: the system
prompt followed by the transcript messages in order, roles preserved. -/
def payloadMessages (messages : List Message) : List Message :=
  ⟨Role.system, SYSTEM_PROMPT⟩ :: messages

/-- The model identifier hardcoded per provider in _stream_response. -/
def completionModel : Provider → String
  | Provider.openAI => "gpt-3.5-turbo"
  | Provider.openRouter => "anthropic/claude-3-haiku"

/-- The completions endpoint used per provider in _stream_response. -/
def completionUrl : Provider → String
  | Provider.openAI => "https://api.openai.com/v1/chat/completions"
  | Provider.openRouter => "https://openrouter.ai/api/v1/chat/completions"

/-- The effects of the exception handler of _stream_response: post the
thinking-indicator removal, then post exactly one rendered error
message. -/
def streamErrorEffects (msg : String) : List Effect :=
  [Effect.post UIAction.hideThinking,
   Effect.post (UIAction.renderMessage "bot" "Solace"
     ("Something went wrong: " ++ msg))]

/-- Stand-in for the text of the Python KeyError raised when a 200
response body lacks the choices path; the claims depend only on the
count and placement of the resulting error render, not on its text. -/
def malformedBodyMsg : String := "KeyError"

/-- _stream_response, run on a worker thread over the messages list it
was handed, given the outcome of the completion POST.  It first posts
the thinking indicator; on a 200 response with well-formed body it posts
the bot-message header and the stripped reply text, appends the
assistant message to conversation_history directly on the worker thread,
and posts the message-finishing action; on any failure the handler posts
the indicator removal and one error message, and the history is left
unchanged. -/
def stream_response (p : Provider) (s : AppState) (messages : List Message)
    (net : NetResult) : AppState × List Effect :=
  let thinking := [Effect.post UIAction.showThinking]
  match net with
  | NetResult.netError msg => (s, thinking ++ streamErrorEffects msg)
  | NetResult.resp statusCode content =>
      if statusCode = 200 then
        match content with
        | Option.some raw =>
            let fullText := pyStrip raw
            ({ s with history := s.history ++ [⟨Role.assistant, fullText⟩] },
             thinking ++
               [Effect.post (UIAction.startBotMessage "Solace"),
                Effect.post (UIAction.appendChunk fullText),
                Effect.appendHistory Thread.worker ⟨Role.assistant, fullText⟩,
                Effect.post UIAction.finishBotMessage])
        | Option.none => (s, thinking ++ streamErrorEffects malformedBodyMsg)
      else
        (s, thinking ++ streamErrorEffects ("API Error: " ++ toString statusCode))

/-- _toggle_breathing: when running, clear the flag, relabel the button
and redraw the Ready circle directly on the UI thread; when idle, set
the flag, relabel and spawn the breathing worker. -/
def toggle_breathing (s : AppState) : AppState × List Effect :=
  if s.breathing then
    ({ s with breathing := false, breathBtnText := "Start Breathing" },
     [Effect.run Thread.ui (UIAction.drawBreathCircle "Ready" 1)])
  else
    ({ s with breathing := true, breathBtnText := "Stop" },
     [Effect.spawnWorker])

/-- The fixed tick count per breathing phase (steps in _run_breathing). -/
def breathingTicks : Nat := 30

/-- End scale of a phase: 1.35 when the label is Inhale or Hold,
otherwise 1.0. -/
def endScale (label : String) : ℚ :=
  if label = "Inhale…" ∨ label = "Hold…" then 27 / 20 else 1

/-- Scale of tick i of a phase: linear interpolation from startScale to
the phase end scale at fraction i / steps. -/
def tickScale (label : String) (i : Nat) : ℚ :=
  1 + (endScale label - 1) * ((i : ℚ) / (breathingTicks : ℚ))

/-- Remaining-seconds label of tick i: the ellipsis replaced by the
truncated remaining duration (Python int() of i*duration/steps equals
Nat division here). -/
def tickLabel (label : String) (duration i : Nat) : String :=
  (label.replace "…" "") ++ " (" ++ toString (duration - i * duration / breathingTicks) ++ "s)"

/-- Effects of one uninterrupted breathing phase: for i = 0 .. steps
(inclusive, hence steps+1 ticks) post a circle redraw at the
interpolated scale, then sleep duration/steps seconds. -/
def phaseTicks (label : String) (duration : Nat) : List Effect :=
  (List.range (breathingTicks + 1)).flatMap (fun i =>
    [Effect.post (UIAction.drawBreathCircle (tickLabel label duration i)
        (tickScale label i)),
     Effect.sleep ((duration : ℚ) / (breathingTicks : ℚ))])

/-- Effects of one uninterrupted box-breathing cycle: the four phases in
listed order. -/
def breathingCycle : List Effect :=
  BOX_BREATHING_STEPS.flatMap (fun step => phaseTicks step.1 step.2)

/-- _run_breathing, uninterrupted (the breathing flag stays true
throughout): four cycles, then the terminal posts relabelling the button
and drawing the Done circle. -/
def run_breathing : List Effect :=
  (List.range 4).flatMap (fun _ => breathingCycle) ++
    [Effect.post (UIAction.setBreathButton "Start Breathing"),
     Effect.post (UIAction.drawBreathCircle "Done ✓" 1)]

/-- Count of breathing-circle render posts in an effect list. -/
def renderCount (es : List Effect) : Nat :=
  (es.filter (fun e =>
    match e with
    | Effect.post (UIAction.drawBreathCircle _ _) => true
    | _ => false)).length

/-- The scales, in order, of the breathing-circle render posts of an
effect list. -/
def renderScales (es : List Effect) : List ℚ :=
  es.filterMap (fun e =>
    match e with
    | Effect.post (UIAction.drawBreathCircle _ scale) => Option.some scale
    | _ => Option.none)

/-- The sleep durations, in order, of an effect list. -/
def sleepsOf (es : List Effect) : List ℚ :=
  es.filterMap (fun e =>
    match e with
    | Effect.sleep q => Option.some q
    | _ => Option.none)

/-- Whether an effect mutates conversation_history. -/
def mutatesHistory : Effect → Bool
  | Effect.appendHistory _ _ => true
  | _ => false

/-- Whether an effect is a history mutation executed directly on a
worker thread (rather than inside a UIDispatch-posted callback). -/
def workerHistoryMutation : Effect → Bool
  | Effect.appendHistory Thread.worker _ => true
  | _ => false

/-- Whether an effect is an error dialog. -/
def isWarn : Effect → Bool
  | Effect.warn _ _ => true
  | _ => false

/-- Count of posted whole-message renders in an effect list.  In the
worker trace of _stream_response these arise only from the error branch
(the success branch renders through startBotMessage and appendChunk), so
on a failing call this counts the rendered error events. -/
def renderMessageCount (es : List Effect) : Nat :=
  (es.filter (fun e =>
    match e with
    | Effect.post (UIAction.renderMessage _ _ _) => true
    | _ => false)).length

/-- A failure predicate specific to the connect-time health check, which
inspects only the status code of the GET (never the body). -/
def healthCheckFailed : NetResult → Bool
  | NetResult.resp statusCode _ => statusCode != 200
  | NetResult.netError _ => true

/-- A connected idle state, as reached after a successful connect. -/
def sampleConnected : AppState :=
  { client := true, statusText := "● Connected", history := [],
    breathing := false, breathBtnText := "Start Breathing" }

/-- The initial state before any successful connect. -/
def sampleDisconnected : AppState :=
  { client := false, statusText := "● Not connected", history := [],
    breathing := false, breathBtnText := "Start Breathing" }

/-- A state with the breathing animation running. -/
def sampleBreathing : AppState :=
  { client := true, statusText := "● Connected", history := [],
    breathing := true, breathBtnText := "Stop" }

/-- C1 (counterexample): the claim that every conversation_history
mutation runs inside a UIDispatch-posted callback is false: on a
successful provider call, _stream_response appends the assistant message
directly on the worker thread (an appendHistory effect on the worker
thread, not a posted action). -/
theorem stream_response_appends_history_directly_on_worker :
    Effect.appendHistory Thread.worker ⟨Role.assistant, "Hello"⟩ ∈
      (stream_response Provider.openRouter sampleConnected []
        (NetResult.resp 200 (Option.some "Hello"))).2 ∧
    ((stream_response Provider.openRouter sampleConnected []
        (NetResult.resp 200 (Option.some "Hello"))).2.any
      workerHistoryMutation) = true := by
  decide

/-- C1 (amended): the user-message append of _send_message executes
directly on the UI thread, while the assistant-message append of a
successful _stream_response executes directly on the worker thread; all
other effects the worker issues are UIDispatch posts. -/
theorem history_append_threads (p : Provider) (s : AppState)
    (messages : List Message) (raw t : String) (hc : s.client = true)
    (hne : pyStrip raw ≠ "") (hph : pyStrip raw ≠ placeholderText) :
    Effect.appendHistory Thread.ui ⟨Role.user, pyStrip raw⟩ ∈
      (send_message p s raw).2 ∧
    Effect.appendHistory Thread.worker ⟨Role.assistant, pyStrip t⟩ ∈
      (stream_response p s messages (NetResult.resp 200 (Option.some t))).2 ∧
    ∀ e ∈ (stream_response p s messages (NetResult.resp 200 (Option.some t))).2,
      (∃ a, e = Effect.post a) ∨ mutatesHistory e = true := by
  refine ⟨?_, ?_, ?_⟩
  · simp [send_message, hc, hne, hph]
  · simp [stream_response]
  · intro e he
    simp [stream_response] at he
    rcases he with h | h | h | h | h <;> subst h <;> simp [mutatesHistory]

/-- C1 (witness). -/
theorem history_append_threads_witness :
    Effect.appendHistory Thread.ui ⟨Role.user, "hi"⟩ ∈
      (send_message Provider.openRouter sampleConnected "hi").2 ∧
    Effect.appendHistory Thread.worker ⟨Role.assistant, "Hello"⟩ ∈
      (stream_response Provider.openRouter sampleConnected []
        (NetResult.resp 200 (Option.some "Hello"))).2 ∧
    ∀ e ∈ (stream_response Provider.openRouter sampleConnected []
        (NetResult.resp 200 (Option.some "Hello"))).2,
      (∃ a, e = Effect.post a) ∨ mutatesHistory e = true :=
  history_append_threads Provider.openRouter sampleConnected []
    "hi" "Hello" rfl (by decide) (by decide)

/-- C2 (code evaluated at the failing input): on a successful provider
call the worker never posts the thinking-indicator removal — the posted
sequence is show-thinking, bot-message header, reply text, history
append, message finish — while hideThinking is posted only on the
failure path. -/
theorem success_path_posts_no_hide_thinking :
    Effect.post UIAction.hideThinking ∉
      (stream_response Provider.openRouter sampleConnected []
        (NetResult.resp 200 (Option.some "Hello"))).2 ∧
    Effect.post UIAction.hideThinking ∈
      (stream_response Provider.openRouter sampleConnected []
        (NetResult.resp 500 Option.none)).2 ∧
    (stream_response Provider.openRouter sampleConnected []
        (NetResult.resp 200 (Option.some "Hello"))).2 =
      [Effect.post UIAction.showThinking,
       Effect.post (UIAction.startBotMessage "Solace"),
       Effect.post (UIAction.appendChunk "Hello"),
       Effect.appendHistory Thread.worker ⟨Role.assistant, "Hello"⟩,
       Effect.post UIAction.finishBotMessage] := by
  decide

/-- C3 (code evaluated at the failing input): for the OpenAI backend the
connect-time health check sends a hardcoded credential (not the
user-supplied key) to the OpenRouter model-listing endpoint (not the
selected provider's own), diverging from the spec-modelled request; the
OpenRouter backend conforms. -/
theorem openai_health_check_uses_hardcoded_key :
    (healthCheckRequest Provider.openAI "sk-user").authHeader ≠ "Bearer sk-user" ∧
    healthCheckRequest Provider.openAI "sk-user" ≠
      healthCheckRequestSpec Provider.openAI "sk-user" ∧
    (healthCheckRequest Provider.openAI "sk-user").url =
      "https://openrouter.ai/api/v1/models" ∧
    healthCheckRequest Provider.openRouter "sk-user" =
      healthCheckRequestSpec Provider.openRouter "sk-user" := by
  decide

/-- C4: a failing provider call (transport error, non-200 status, or
200 with malformed body) leaves the whole application state — in
particular conversation_history and the client flag — unchanged, posts
exactly one rendered error message, posts the thinking-indicator
removal, and mutates the history through no effect. -/
theorem failed_call_leaves_state_unchanged (p : Provider) (s : AppState)
    (messages : List Message) (net : NetResult)
    (hf : net.isFailure = true) :
    (stream_response p s messages net).1 = s ∧
    renderMessageCount (stream_response p s messages net).2 = 1 ∧
    Effect.post UIAction.hideThinking ∈ (stream_response p s messages net).2 ∧
    ∀ e ∈ (stream_response p s messages net).2, mutatesHistory e = false := by
  cases net with
  | netError msg =>
      refine ⟨rfl, rfl, by simp [stream_response, streamErrorEffects], ?_⟩
      intro e he
      simp [stream_response, streamErrorEffects] at he
      rcases he with h | h | h <;> subst h <;> rfl
  | resp statusCode content =>
      by_cases h200 : statusCode = 200
      · subst h200
        cases content with
        | some raw => simp [NetResult.isFailure] at hf
        | none =>
            refine ⟨rfl, rfl, by simp [stream_response, streamErrorEffects], ?_⟩
            intro e he
            simp [stream_response, streamErrorEffects] at he
            rcases he with h | h | h <;> subst h <;> rfl
      · refine ⟨?_, ?_, ?_, ?_⟩
        · simp [stream_response, h200]
        · simp [stream_response, h200, renderMessageCount, streamErrorEffects,
            List.filter]
        · simp [stream_response, h200, streamErrorEffects]
        · intro e he
          simp [stream_response, h200, streamErrorEffects] at he
          rcases he with h | h | h <;> subst h <;> rfl

/-- C4 (witness). -/
theorem failed_call_leaves_state_unchanged_witness :
    (stream_response Provider.openRouter sampleConnected []
        (NetResult.resp 500 Option.none)).1 = sampleConnected ∧
    renderMessageCount (stream_response Provider.openRouter sampleConnected []
        (NetResult.resp 500 Option.none)).2 = 1 ∧
    Effect.post UIAction.hideThinking ∈
      (stream_response Provider.openRouter sampleConnected []
        (NetResult.resp 500 Option.none)).2 ∧
    ∀ e ∈ (stream_response Provider.openRouter sampleConnected []
        (NetResult.resp 500 Option.none)).2, mutatesHistory e = false :=
  failed_call_leaves_state_unchanged Provider.openRouter sampleConnected []
    (NetResult.resp 500 Option.none) (by decide)

/-- C5 (counterexample): the input whose trimmed text equals the
placeholder string is non-empty after trimming, yet send appends no user
message and schedules no worker, so the claim quantified over all
non-empty trimmed inputs fails. -/
theorem placeholder_input_not_appended :
    pyStrip placeholderText ≠ "" ∧
    (send_message Provider.openRouter sampleConnected placeholderText).1.history =
      sampleConnected.history ∧
    Effect.spawnWorker ∉
      (send_message Provider.openRouter sampleConnected placeholderText).2 := by
  decide

/-- C5 (amended): while Connected, input whose trimmed text is non-empty
and differs from the placeholder appends exactly one user message with
the trimmed content, with the append issued before the worker spawn;
input that trims to empty is a silent no-op. -/
theorem send_message_appends_trimmed_input (p : Provider) (s : AppState)
    (raw : String) (hc : s.client = true) :
    (pyStrip raw ≠ "" → pyStrip raw ≠ placeholderText →
      (send_message p s raw).1.history = s.history ++ [⟨Role.user, pyStrip raw⟩] ∧
      (send_message p s raw).2 =
        [Effect.run Thread.ui (UIAction.renderMessage "user" "You" (pyStrip raw)),
         Effect.appendHistory Thread.ui ⟨Role.user, pyStrip raw⟩,
         Effect.spawnWorker]) ∧
    (pyStrip raw = "" → send_message p s raw = (s, [])) := by
  constructor
  · intro hne hph
    constructor <;> simp [send_message, hc, hne, hph]
  · intro he
    simp [send_message, hc, he]

/-- C5 (witness). -/
theorem send_message_appends_trimmed_input_witness :
    ((pyStrip "  hi  " ≠ "" → pyStrip "  hi  " ≠ placeholderText →
      (send_message Provider.openRouter sampleConnected "  hi  ").1.history =
        sampleConnected.history ++ [⟨Role.user, pyStrip "  hi  "⟩] ∧
      (send_message Provider.openRouter sampleConnected "  hi  ").2 =
        [Effect.run Thread.ui
          (UIAction.renderMessage "user" "You" (pyStrip "  hi  ")),
         Effect.appendHistory Thread.ui ⟨Role.user, pyStrip "  hi  "⟩,
         Effect.spawnWorker]) ∧
    (pyStrip "  hi  " = "" →
      send_message Provider.openRouter sampleConnected "  hi  " =
        (sampleConnected, []))) ∧
    pyStrip "  hi  " ≠ "" ∧ pyStrip "  hi  " ≠ placeholderText :=
  ⟨send_message_appends_trimmed_input Provider.openRouter sampleConnected
    "  hi  " rfl, by decide, by decide⟩

/-- C6: send while the client flag is unset mutates nothing, surfaces
the Not Connected warning, and spawns no worker. -/
theorem send_not_connected_no_mutation (p : Provider) (s : AppState)
    (raw : String) (h : s.client = false) :
    (send_message p s raw).1 = s ∧
    (send_message p s raw).2 =
      [Effect.warn "Not Connected"
        ("Please enter your " ++ providerName p ++ " API key and click Connect.")] ∧
    Effect.spawnWorker ∉ (send_message p s raw).2 := by
  refine ⟨?_, ?_, ?_⟩ <;> simp [send_message, h]

/-- C6 (witness). -/
theorem send_not_connected_no_mutation_witness :
    (send_message Provider.openRouter sampleDisconnected "hi").1 =
      sampleDisconnected ∧
    (send_message Provider.openRouter sampleDisconnected "hi").2 =
      [Effect.warn "Not Connected"
        ("Please enter your " ++ providerName Provider.openRouter ++
          " API key and click Connect.")] ∧
    Effect.spawnWorker ∉
      (send_message Provider.openRouter sampleDisconnected "hi").2 :=
  send_not_connected_no_mutation Provider.openRouter sampleDisconnected "hi" rfl

/-- C7 (counterexample): after a previously successful connect, a failed
health check sets the status label to Error yet leaves the client flag
set, so a subsequent send is still accepted (it appends the user
message), contradicting the claim that send must not be accepted after a
failed connect attempt. -/
theorem failed_reconnect_still_accepts_send :
    (connect_client sampleConnected (NetResult.resp 401 Option.none)).1.statusText =
      "● Error" ∧
    (connect_client sampleConnected (NetResult.resp 401 Option.none)).1.client =
      true ∧
    (send_message Provider.openRouter
        (connect_client sampleConnected (NetResult.resp 401 Option.none)).1
        "hi").1.history ≠ sampleConnected.history := by
  decide

/-- C7 (amended): a failed health check (non-200 or transport error)
always sets the status label to Error — never Connected — and leaves the
client flag and the transcript unchanged; since the flag is not cleared,
send acceptance after the failed attempt equals what it was before. -/
theorem failed_health_check_sets_error_status (s : AppState) (net : NetResult)
    (hf : healthCheckFailed net = true) :
    (connect_client s net).1.statusText = "● Error" ∧
    (connect_client s net).1.statusText ≠ "● Connected" ∧
    (connect_client s net).1.client = s.client ∧
    (connect_client s net).1.history = s.history := by
  have hne : ("● Error" : String) ≠ "● Connected" := by decide
  cases net with
  | netError msg => exact ⟨rfl, hne, rfl, rfl⟩
  | resp statusCode content =>
      have h200 : ¬ statusCode = 200 := by
        simpa [healthCheckFailed] using hf
      refine ⟨?_, ?_, ?_, ?_⟩ <;> simp [connect_client, h200, hne]

/-- C7 (witness). -/
theorem failed_health_check_sets_error_status_witness :
    (connect_client sampleDisconnected (NetResult.resp 500 Option.none)).1.statusText =
      "● Error" ∧
    (connect_client sampleDisconnected (NetResult.resp 500 Option.none)).1.statusText ≠
      "● Connected" ∧
    (connect_client sampleDisconnected (NetResult.resp 500 Option.none)).1.client =
      sampleDisconnected.client ∧
    (connect_client sampleDisconnected (NetResult.resp 500 Option.none)).1.history =
      sampleDisconnected.history :=
  failed_health_check_sets_error_status sampleDisconnected
    (NetResult.resp 500 Option.none) (by decide)

/-- C8 (counterexample): each breathing phase posts 31 circle renders
(the tick loop runs for i = 0 .. 30 inclusive), not 30 as claimed. -/
theorem phase_posts_thirty_one_renders :
    renderCount (phaseTicks "Inhale…" 4) = 31 ∧
    ¬ renderCount (phaseTicks "Inhale…" 4) = 30 := by
  decide

/-- Extraction lemma: the circle-render scales of an appended effect
list split over the append. -/
theorem renderScales_append (xs ys : List Effect) :
    renderScales (xs ++ ys) = renderScales xs ++ renderScales ys :=
  List.filterMap_append xs ys _

/-- Extraction lemma: the sleeps of an appended effect list split over
the append. -/
theorem sleepsOf_append (xs ys : List Effect) :
    sleepsOf (xs ++ ys) = sleepsOf xs ++ sleepsOf ys :=
  List.filterMap_append xs ys _

/-- The render scales of the tick effects over an arbitrary tick index
list are exactly the interpolated scales of those indices. -/
theorem renderScales_ticks (label : String) (duration : Nat) (l : List Nat) :
    renderScales (l.flatMap (fun i =>
      [Effect.post (UIAction.drawBreathCircle (tickLabel label duration i)
          (tickScale label i)),
       Effect.sleep ((duration : ℚ) / (breathingTicks : ℚ))])) =
      l.map (tickScale label) := by
  induction l with
  | nil => rfl
  | cons a tl ih => rw [List.flatMap_cons, renderScales_append, ih]; rfl

/-- The sleeps of the tick effects over an arbitrary tick index list are
one sleep of duration/ticks per index. -/
theorem sleepsOf_ticks (label : String) (duration : Nat) (l : List Nat) :
    sleepsOf (l.flatMap (fun i =>
      [Effect.post (UIAction.drawBreathCircle (tickLabel label duration i)
          (tickScale label i)),
       Effect.sleep ((duration : ℚ) / (breathingTicks : ℚ))])) =
      l.map (fun _ => (duration : ℚ) / (breathingTicks : ℚ)) := by
  induction l with
  | nil => rfl
  | cons a tl ih => rw [List.flatMap_cons, sleepsOf_append, ih]; rfl

/-- C8 (amended): an uninterrupted run is four cycles of the four phases
inhale 4s, hold 4s, exhale 6s, hold 4s in order followed by the terminal
posts; each phase posts exactly 31 renders whose scales are the linear
interpolations from 1 to the phase end scale at fractions i/30, each
render followed by a sleep of duration/30 seconds. -/
theorem breathing_run_structure (label : String) (duration : Nat)
    (hmem : (label, duration) ∈ BOX_BREATHING_STEPS) :
    run_breathing =
      breathingCycle ++ breathingCycle ++ breathingCycle ++ breathingCycle ++
        [Effect.post (UIAction.setBreathButton "Start Breathing"),
         Effect.post (UIAction.drawBreathCircle "Done ✓" 1)] ∧
    breathingCycle =
      phaseTicks "Inhale…" 4 ++ phaseTicks "Hold…" 4 ++
        phaseTicks "Exhale…" 6 ++ phaseTicks "Hold…" 4 ∧
    renderCount (phaseTicks label duration) = 31 ∧
    renderScales (phaseTicks label duration) =
      (List.range (breathingTicks + 1)).map
        (fun i => 1 + (endScale label - 1) * ((i : ℚ) / (breathingTicks : ℚ))) ∧
    sleepsOf (phaseTicks label duration) =
      List.replicate (breathingTicks + 1)
        ((duration : ℚ) / (breathingTicks : ℚ)) := by
  refine ⟨?_, ?_, ?_, ?_, ?_⟩
  · show ((List.range 4).flatMap fun _ => breathingCycle) ++ _ = _
    rw [show List.range 4 = [0, 1, 2, 3] from rfl]
    simp [List.flatMap_cons, List.flatMap_nil, List.append_assoc]
  · show BOX_BREATHING_STEPS.flatMap _ = _
    rw [show BOX_BREATHING_STEPS =
      [("Inhale…", 4), ("Hold…", 4), ("Exhale…", 6), ("Hold…", 4)] from rfl]
    simp [List.flatMap_cons, List.flatMap_nil, List.append_assoc]
  · fin_cases hmem <;> decide
  · exact renderScales_ticks label duration (List.range (breathingTicks + 1))
  · rw [show phaseTicks label duration = (List.range (breathingTicks + 1)).flatMap
        (fun i =>
          [Effect.post (UIAction.drawBreathCircle (tickLabel label duration i)
              (tickScale label i)),
           Effect.sleep ((duration : ℚ) / (breathingTicks : ℚ))]) from rfl,
      sleepsOf_ticks, List.map_const', List.length_range]

/-- C8 (witness). -/
theorem breathing_run_structure_witness :
    (run_breathing =
      breathingCycle ++ breathingCycle ++ breathingCycle ++ breathingCycle ++
        [Effect.post (UIAction.setBreathButton "Start Breathing"),
         Effect.post (UIAction.drawBreathCircle "Done ✓" 1)] ∧
    breathingCycle =
      phaseTicks "Inhale…" 4 ++ phaseTicks "Hold…" 4 ++
        phaseTicks "Exhale…" 6 ++ phaseTicks "Hold…" 4 ∧
    renderCount (phaseTicks "Inhale…" 4) = 31 ∧
    renderScales (phaseTicks "Inhale…" 4) =
      (List.range (breathingTicks + 1)).map
        (fun i => 1 + (endScale "Inhale…" - 1) * ((i : ℚ) / (breathingTicks : ℚ))) ∧
    sleepsOf (phaseTicks "Inhale…" 4) =
      List.replicate (breathingTicks + 1)
        (((4 : Nat) : ℚ) / (breathingTicks : ℚ))) ∧
    ("Inhale…", 4) ∈ BOX_BREATHING_STEPS :=
  ⟨breathing_run_structure "Inhale…" 4 (by decide), by decide⟩

/-- C9 (counterexample): pressing the breathing button while the
animation is running is not a no-op: the running flag flips to false and
the display resets, i.e. it acts as a stop request. -/
theorem toggle_while_running_changes_flag :
    (toggle_breathing sampleBreathing).1.breathing = false ∧
    (toggle_breathing sampleBreathing).1 ≠ sampleBreathing := by
  decide

/-- C9 (amended): pressing the button while running stops the animation
(flag cleared, button relabelled, Ready circle drawn) and starts no
second worker; the worker-spawning branch runs only from a non-running
state, so a press never spawns a worker while the flag is set. -/
theorem toggle_while_running_stops (s : AppState) (h : s.breathing = true) :
    (toggle_breathing s).1.breathing = false ∧
    Effect.spawnWorker ∉ (toggle_breathing s).2 ∧
    (toggle_breathing s).2 =
      [Effect.run Thread.ui (UIAction.drawBreathCircle "Ready" 1)] ∧
    (toggle_breathing s).1.breathBtnText = "Start Breathing" ∧
    ∀ s2 : AppState, Effect.spawnWorker ∈ (toggle_breathing s2).2 →
      s2.breathing = false := by
  refine ⟨?_, ?_, ?_, ?_, ?_⟩
  · simp [toggle_breathing, h]
  · simp [toggle_breathing, h]
  · simp [toggle_breathing, h]
  · simp [toggle_breathing, h]
  · intro s2 hmem
    by_cases hb : s2.breathing
    · simp [toggle_breathing, hb] at hmem
    · simpa using hb

/-- C9 (witness). -/
theorem toggle_while_running_stops_witness :
    (toggle_breathing sampleBreathing).1.breathing = false ∧
    Effect.spawnWorker ∉ (toggle_breathing sampleBreathing).2 ∧
    (toggle_breathing sampleBreathing).2 =
      [Effect.run Thread.ui (UIAction.drawBreathCircle "Ready" 1)] ∧
    (toggle_breathing sampleBreathing).1.breathBtnText = "Start Breathing" ∧
    ∀ s2 : AppState, Effect.spawnWorker ∈ (toggle_breathing s2).2 →
      s2.breathing = false :=
  toggle_while_running_stops sampleBreathing rfl

/-- C10: while Connected, input whose trimmed text equals the
placeholder string is silently ignored — state unchanged and no effects
at all — even though the placeholder is non-empty and non-whitespace. -/
theorem placeholder_send_silently_ignored (p : Provider) (s : AppState)
    (raw : String) (hc : s.client = true)
    (hph : pyStrip raw = placeholderText) :
    send_message p s raw = (s, []) ∧ pyStrip raw ≠ "" := by
  constructor
  · simp [send_message, hc, hph]
  · rw [hph]
    decide

/-- C10 (witness). -/
theorem placeholder_send_silently_ignored_witness :
    send_message Provider.openRouter sampleConnected placeholderText =
      (sampleConnected, []) ∧ pyStrip placeholderText ≠ "" :=
  placeholder_send_silently_ignored Provider.openRouter sampleConnected
    placeholderText rfl (by decide)

end Solace
